import Mathlib

/-
Verification of `src/components/security_manager/src/crypto_manager_impl.cc`
(class `CryptoManagerImpl`, namespace `security_manager`).

The OpenSSL library is external to the repository slice.  It is modelled as
an oracle (`LibEnv`) that decides the outcome of each library call made by
the code; the embedding follows the control flow of the C++ source exactly
and records, in a trace, which context-configuration calls were performed.
-/

namespace security_manager

/-- Handshake role of a manager.  The C++ enum `Mode` is declared in a header
outside this slice; modelled from the spec: Role = Initiator (`CLIENT`,
active open) or Acceptor (`SERVER`, passive open).  The source compares via
`mode == SERVER` (line 67) and defaults to `CLIENT` (line 48). -/
inductive Mode
  | CLIENT
  | SERVER
  deriving DecidableEq

/-- Boolean form of the source's `mode == SERVER` comparison (line 67). -/
def Mode.isServer : Mode → Bool
  | .SERVER => true
  | .CLIENT => false

/-- Requested wire protocol.  The C++ enum `Protocol` is declared in a header
outside this slice; modelled from the spec: {SSLv3, TLSv1.1, TLSv1.2}.  The
`switch` in `Init` (lines 74-104) has a `default` branch for any other enum
value; `UNKNOWN` stands for such a value. -/
inductive Protocol
  | SSLv3
  | TLSv1_1
  | TLSv1_2
  | UNKNOWN
  deriving DecidableEq

/-- The role- and version-specific `SSL_METHOD` selected by the `switch`
(lines 74-104). -/
inductive SSLMethod
  | SSLv3_server
  | SSLv3_client
  | TLSv1_1_server
  | TLSv1_1_client
  | TLSv1_2_server
  | TLSv1_2_client
  deriving DecidableEq

/-- Peer-verification flags passed to `SSL_CTX_set_verify` (line 136):
either `SSL_VERIFY_PEER | SSL_VERIFY_FAIL_IF_NO_PEER_CERT` or
`SSL_VERIFY_NONE`. -/
inductive VerifyMode
  | PEER_FAIL_IF_NO_PEER_CERT
  | VERIFY_NONE
  deriving DecidableEq

/-- Abstract state of a live `SSL_CTX`: which configuration the code has
successfully applied to it. -/
structure SSLCtx where
  method : SSLMethod
  optNoSSLv2 : Bool
  certApplied : Bool
  keyApplied : Bool
  cipherSet : Bool
  verifySet : Option VerifyMode
  deriving DecidableEq

/-- A freshly allocated context carrying only its method (`SSL_CTX_new`,
line 105). -/
def SSLCtx.fresh (method : SSLMethod) : SSLCtx :=
  { method := method
    optNoSSLv2 := false
    certApplied := false
    keyApplied := false
    cipherSet := false
    verifySet := none }

/-- Context-related OpenSSL calls performed by `Init` (lines 105-136),
recorded in order in a trace. -/
inductive LibCall
  | SSL_CTX_new (method : SSLMethod)
  | SSL_CTX_set_options
  | SSL_CTX_use_certificate_file (path : String)
  | SSL_CTX_use_PrivateKey_file (path : String)
  | SSL_CTX_check_private_key
  | SSL_CTX_set_cipher_list (ciphers : String)
  | SSL_CTX_set_verify
  deriving DecidableEq

/-- Oracle for the external OpenSSL library: the outcome of each fallible
call the code makes.  The code never inspects more than success/failure. -/
structure LibEnv where
  ctxNewOk : SSLMethod → Bool
  useCertOk : String → Bool
  useKeyOk : String → Bool
  checkKeyOk : Bool
  setCipherOk : String → Bool
  sslNewOk : Bool

/-- Per-manager state: the two data members of `CryptoManagerImpl`
(`context_`, `mode_`). -/
structure CryptoManagerImpl where
  context_ : Option SSLCtx
  mode_ : Mode
  deriving DecidableEq

/-- The constructor (lines 46-49): null context, mode `CLIENT`. -/
def CryptoManagerImpl.new : CryptoManagerImpl :=
  { context_ := none, mode_ := Mode.CLIENT }

/-- Process-wide state: the static `instance_count_` (line 44, a C++ `int`,
hence `Int`) together with ghost counters observing the engine-wide
bootstrap (lines 58-63) and cleanup (lines 143-146). -/
structure GlobalState where
  instance_count_ : Int
  engineAllocs : Nat
  engineFrees : Nat
  engineLive : Bool
  deriving DecidableEq

/-- Process start: `instance_count_ = 0` (line 44), engine not initialised. -/
def initialGlobal : GlobalState :=
  { instance_count_ := 0, engineAllocs := 0, engineFrees := 0, engineLive := false }

/-- Lines 58-64: when no instance is live, perform the one-time engine
bootstrap (`SSL_load_error_strings`, `ERR_load_BIO_strings`,
`OpenSSL_add_all_algorithms`, `SSL_library_init`); then increment
`instance_count_` unconditionally. -/
def bootstrapAndCount (g : GlobalState) : GlobalState :=
  if g.instance_count_ = 0 then
    { instance_count_ := g.instance_count_ + 1
      engineAllocs := g.engineAllocs + 1
      engineFrees := g.engineFrees
      engineLive := true }
  else
    { g with instance_count_ := g.instance_count_ + 1 }

/-- The `switch (protocol)` of lines 74-104.  `openssl_ge_1_0_1` models the
`OPENSSL_VERSION_NUMBER < 0x1000100f` build-time conditional: when the
linked library predates 1.0.1, the `TLSv1_1` and `TLSv1_2` cases return
`false` before any method is resolved; the `default` case always does. -/
def resolveMethod (openssl_ge_1_0_1 : Bool) (is_server : Bool) :
    Protocol → Option SSLMethod
  | Protocol.SSLv3 =>
      some (if is_server then SSLMethod.SSLv3_server else SSLMethod.SSLv3_client)
  | Protocol.TLSv1_1 =>
      if openssl_ge_1_0_1 then
        some (if is_server then SSLMethod.TLSv1_1_server else SSLMethod.TLSv1_1_client)
      else none
  | Protocol.TLSv1_2 =>
      if openssl_ge_1_0_1 then
        some (if is_server then SSLMethod.TLSv1_2_server else SSLMethod.TLSv1_2_client)
      else none
  | Protocol.UNKNOWN => none

/-- Result of one block of `Init`: whether the block fell through
successfully, the context state afterwards, and the calls it performed. -/
structure StepResult where
  ok : Bool
  ctx : Option SSLCtx
  calls : List LibCall
  deriving DecidableEq

/-- Lines 105-108: `context_ = SSL_CTX_new(method)` — the result is stored
WITHOUT a null check — then, for `SSLv3` only,
`SSL_CTX_set_options(context_, SSL_OP_NO_SSLv2)`.  On a null context the
option store is a no-op in this model (the real library would dereference
null). -/
def allocContext (env : LibEnv) (protocol : Protocol) (method : SSLMethod) :
    StepResult :=
  let ctx0 : Option SSLCtx :=
    if env.ctxNewOk method then some (SSLCtx.fresh method) else none
  if protocol = Protocol.SSLv3 then
    { ok := true
      ctx := ctx0.map (fun c => { c with optNoSSLv2 := true })
      calls := [LibCall.SSL_CTX_new method, LibCall.SSL_CTX_set_options] }
  else
    { ok := true, ctx := ctx0, calls := [LibCall.SSL_CTX_new method] }

/-- Lines 110-128: the credential block.  If the certificate path is
non-empty, load the certificate (failure aborts the build); if a key path
is also given, load the key (failure aborts) and check it against the
certificate (mismatch aborts).  An empty certificate path skips the whole
block, so the key path is never consulted. -/
def applyCredentials (env : LibEnv) (cert_filename key_filename : String)
    (ctx : Option SSLCtx) : StepResult :=
  if cert_filename = "" then
    { ok := true, ctx := ctx, calls := [] }
  else
    if env.useCertOk cert_filename = false then
      { ok := false, ctx := ctx
        calls := [LibCall.SSL_CTX_use_certificate_file cert_filename] }
    else
      let ctx1 := ctx.map (fun c => { c with certApplied := true })
      if key_filename = "" then
        { ok := true, ctx := ctx1
          calls := [LibCall.SSL_CTX_use_certificate_file cert_filename] }
      else
        if env.useKeyOk key_filename = false then
          { ok := false, ctx := ctx1
            calls := [LibCall.SSL_CTX_use_certificate_file cert_filename,
                      LibCall.SSL_CTX_use_PrivateKey_file key_filename] }
        else
          let ctx2 := ctx1.map (fun c => { c with keyApplied := true })
          if env.checkKeyOk = false then
            { ok := false, ctx := ctx2
              calls := [LibCall.SSL_CTX_use_certificate_file cert_filename,
                        LibCall.SSL_CTX_use_PrivateKey_file key_filename,
                        LibCall.SSL_CTX_check_private_key] }
          else
            { ok := true, ctx := ctx2
              calls := [LibCall.SSL_CTX_use_certificate_file cert_filename,
                        LibCall.SSL_CTX_use_PrivateKey_file key_filename,
                        LibCall.SSL_CTX_check_private_key] }

/-- Lines 130-138: apply the cipher list (rejection aborts the build), then
unconditionally set the verify mode and return `true`. -/
def applyCipherVerify (env : LibEnv) (ciphers_list : String)
    (verify_peer : Bool) (ctx : Option SSLCtx) : StepResult :=
  if env.setCipherOk ciphers_list = false then
    { ok := false, ctx := ctx
      calls := [LibCall.SSL_CTX_set_cipher_list ciphers_list] }
  else
    { ok := true
      ctx := ctx.map (fun c =>
        { c with
          cipherSet := true
          verifySet := some (if verify_peer then VerifyMode.PEER_FAIL_IF_NO_PEER_CERT
                             else VerifyMode.VERIFY_NONE) })
      calls := [LibCall.SSL_CTX_set_cipher_list ciphers_list,
                LibCall.SSL_CTX_set_verify] }

/-- Everything `Init` produces: its return value, the manager and global
state afterwards, and the trace of context-configuration calls. -/
structure InitResult where
  ret : Bool
  mgr : CryptoManagerImpl
  global : GlobalState
  calls : List LibCall

/-- `CryptoManagerImpl::Init` (lines 51-139), assembled from the blocks
above in source order: engine bootstrap + unconditional ref-count increment
(58-64), `mode_ = mode` (66), method resolution (74-104, returning `false`
with no context allocation when it fails), context allocation and the
SSLv3-only option (105-108), credentials (110-128), cipher list and verify
mode (130-138). -/
def CryptoManagerImpl.Init (env : LibEnv) (openssl_ge_1_0_1 : Bool)
    (self : CryptoManagerImpl) (g : GlobalState) (mode : Mode)
    (protocol : Protocol) (cert_filename key_filename ciphers_list : String)
    (verify_peer : Bool) : InitResult :=
  let g1 := bootstrapAndCount g
  let self1 : CryptoManagerImpl := { self with mode_ := mode }
  match resolveMethod openssl_ge_1_0_1 mode.isServer protocol with
  | none => { ret := false, mgr := self1, global := g1, calls := [] }
  | some method =>
    let ac := allocContext env protocol method
    let cr := applyCredentials env cert_filename key_filename ac.ctx
    if cr.ok = false then
      { ret := false
        mgr := { self1 with context_ := cr.ctx }
        global := g1
        calls := ac.calls ++ cr.calls }
    else
      let cv := applyCipherVerify env ciphers_list verify_peer cr.ctx
      { ret := cv.ok
        mgr := { self1 with context_ := cv.ctx }
        global := g1
        calls := ac.calls ++ cr.calls ++ cv.calls }

/-- `CryptoManagerImpl::Finish` (lines 141-147): free the context (the
dangling pointer stays stored, so `context_` is unchanged in the model),
decrement `instance_count_`, and when it reaches zero perform the
engine-wide cleanup (`EVP_cleanup`, `ERR_free_strings`). -/
def CryptoManagerImpl.Finish (self : CryptoManagerImpl) (g : GlobalState) :
    CryptoManagerImpl × GlobalState :=
  let g1 := { g with instance_count_ := g.instance_count_ - 1 }
  if g1.instance_count_ = 0 then
    (self, { g1 with engineFrees := g1.engineFrees + 1, engineLive := false })
  else
    (self, g1)

/-- The per-connection handshake object returned by `SSL_new`, bound to the
context it was created from, with the handshake direction set by
`SSL_set_accept_state` / `SSL_set_connect_state` (lines 158-162). -/
inductive HandshakeState
  | accept_state
  | connect_state
  deriving DecidableEq

/-- A live `SSL` connection object. -/
structure SSLConn where
  ctx : SSLCtx
  hstate : HandshakeState
  deriving DecidableEq

/-- The `SSLContextImpl` channel wrapper handed to the caller (line 164):
it owns the connection and remembers the manager's mode. -/
structure SSLContextImpl where
  conn : SSLConn
  mode : Mode
  deriving DecidableEq

/-- `CryptoManagerImpl::CreateSSLContext` (lines 149-165): null when no
context exists; null when `SSL_new` fails; otherwise a channel wrapping a
connection bound to the shared context, in accept state for `SERVER` and
connect state otherwise. -/
def CryptoManagerImpl.CreateSSLContext (env : LibEnv)
    (self : CryptoManagerImpl) : Option SSLContextImpl :=
  match self.context_ with
  | none => none
  | some ctx =>
    if env.sslNewOk = false then none
    else
      some { conn := { ctx := ctx
                       hstate := if self.mode_.isServer then HandshakeState.accept_state
                                 else HandshakeState.connect_state }
             mode := self.mode_ }

/-! Helper lemmas about the blocks of `Init`. -/

theorem bootstrapAndCount_count (g : GlobalState) :
    (bootstrapAndCount g).instance_count_ = g.instance_count_ + 1 := by
  unfold bootstrapAndCount
  split <;> rfl

theorem bootstrapAndCount_frees (g : GlobalState) :
    (bootstrapAndCount g).engineFrees = g.engineFrees := by
  unfold bootstrapAndCount
  split <;> rfl

theorem Init_global (env : LibEnv) (o : Bool) (self : CryptoManagerImpl)
    (g : GlobalState) (mode : Mode) (protocol : Protocol)
    (cf kf cl : String) (vp : Bool) :
    (CryptoManagerImpl.Init env o self g mode protocol cf kf cl vp).global
      = bootstrapAndCount g := by
  unfold CryptoManagerImpl.Init
  cases h : resolveMethod o mode.isServer protocol <;> simp
  split <;> rfl

theorem Init_mode (env : LibEnv) (o : Bool) (self : CryptoManagerImpl)
    (g : GlobalState) (mode : Mode) (protocol : Protocol)
    (cf kf cl : String) (vp : Bool) :
    (CryptoManagerImpl.Init env o self g mode protocol cf kf cl vp).mgr.mode_
      = mode := by
  unfold CryptoManagerImpl.Init
  cases h : resolveMethod o mode.isServer protocol <;> simp
  split <;> rfl

theorem Init_of_resolve_none (env : LibEnv) (o : Bool)
    (self : CryptoManagerImpl) (g : GlobalState) (mode : Mode)
    (protocol : Protocol) (cf kf cl : String) (vp : Bool)
    (h : resolveMethod o mode.isServer protocol = none) :
    CryptoManagerImpl.Init env o self g mode protocol cf kf cl vp
      = { ret := false, mgr := { self with mode_ := mode }
          global := bootstrapAndCount g, calls := [] } := by
  unfold CryptoManagerImpl.Init
  rw [h]

theorem Init_of_resolve_some (env : LibEnv) (o : Bool)
    (self : CryptoManagerImpl) (g : GlobalState) (mode : Mode)
    (protocol : Protocol) (cf kf cl : String) (vp : Bool) (m : SSLMethod)
    (h : resolveMethod o mode.isServer protocol = some m) :
    CryptoManagerImpl.Init env o self g mode protocol cf kf cl vp
      = (if (applyCredentials env cf kf (allocContext env protocol m).ctx).ok = false then
          { ret := false,
            mgr := { context_ := (applyCredentials env cf kf (allocContext env protocol m).ctx).ctx,
                     mode_ := mode },
            global := bootstrapAndCount g,
            calls := (allocContext env protocol m).calls
                      ++ (applyCredentials env cf kf (allocContext env protocol m).ctx).calls }
        else
          { ret := (applyCipherVerify env cl vp (applyCredentials env cf kf (allocContext env protocol m).ctx).ctx).ok,
            mgr := { context_ := (applyCipherVerify env cl vp (applyCredentials env cf kf (allocContext env protocol m).ctx).ctx).ctx,
                     mode_ := mode },
            global := bootstrapAndCount g,
            calls := (allocContext env protocol m).calls
                      ++ (applyCredentials env cf kf (allocContext env protocol m).ctx).calls
                      ++ (applyCipherVerify env cl vp (applyCredentials env cf kf (allocContext env protocol m).ctx).ctx).calls }) := by
  unfold CryptoManagerImpl.Init
  rw [h]

theorem allocContext_ctx_none (env : LibEnv) (protocol : Protocol)
    (m : SSLMethod) (h : env.ctxNewOk m = false) :
    (allocContext env protocol m).ctx = none := by
  unfold allocContext
  by_cases hp : protocol = Protocol.SSLv3 <;> simp [hp, h]

theorem allocContext_ctx_some (env : LibEnv) (protocol : Protocol)
    (m : SSLMethod) (h : env.ctxNewOk m = true) :
    (allocContext env protocol m).ctx
      = some { SSLCtx.fresh m with optNoSSLv2 := decide (protocol = Protocol.SSLv3) } := by
  unfold allocContext
  by_cases hp : protocol = Protocol.SSLv3 <;> simp [hp, h, SSLCtx.fresh]

theorem allocContext_calls (env : LibEnv) (protocol : Protocol) (m : SSLMethod) :
    (allocContext env protocol m).calls
      = if protocol = Protocol.SSLv3 then
          [LibCall.SSL_CTX_new m, LibCall.SSL_CTX_set_options]
        else [LibCall.SSL_CTX_new m] := by
  unfold allocContext
  by_cases hp : protocol = Protocol.SSLv3 <;>
    by_cases hn : env.ctxNewOk m = true <;> simp_all

theorem applyCredentials_ok_iff (env : LibEnv) (cf kf : String)
    (ctx : Option SSLCtx) :
    (applyCredentials env cf kf ctx).ok = true ↔
      (cf = "" ∨ (env.useCertOk cf = true
        ∧ (kf = "" ∨ (env.useKeyOk kf = true ∧ env.checkKeyOk = true)))) := by
  unfold applyCredentials
  by_cases h1 : cf = "" <;> by_cases h2 : env.useCertOk cf = false <;>
    by_cases h3 : kf = "" <;> by_cases h4 : env.useKeyOk kf = false <;>
      by_cases h5 : env.checkKeyOk = false <;> simp_all

theorem applyCredentials_calls_key_mem (env : LibEnv) (cf kf : String)
    (ctx : Option SSLCtx) (p : String) :
    LibCall.SSL_CTX_use_PrivateKey_file p ∈ (applyCredentials env cf kf ctx).calls ↔
      (cf ≠ "" ∧ env.useCertOk cf = true ∧ kf ≠ "" ∧ p = kf) := by
  unfold applyCredentials
  by_cases h1 : cf = "" <;> by_cases h2 : env.useCertOk cf = false <;>
    by_cases h3 : kf = "" <;> by_cases h4 : env.useKeyOk kf = false <;>
      by_cases h5 : env.checkKeyOk = false <;> simp_all

theorem applyCredentials_calls_cert_mem (env : LibEnv) (cf kf : String)
    (ctx : Option SSLCtx) (h : cf ≠ "") :
    LibCall.SSL_CTX_use_certificate_file cf ∈ (applyCredentials env cf kf ctx).calls := by
  unfold applyCredentials
  by_cases h2 : env.useCertOk cf = false <;>
    by_cases h3 : kf = "" <;> by_cases h4 : env.useKeyOk kf = false <;>
      by_cases h5 : env.checkKeyOk = false <;> simp_all

theorem applyCredentials_calls_check_mem (env : LibEnv) (cf kf : String)
    (ctx : Option SSLCtx) (h1 : cf ≠ "") (h2 : env.useCertOk cf = true)
    (h3 : kf ≠ "") (h4 : env.useKeyOk kf = true) :
    LibCall.SSL_CTX_check_private_key ∈ (applyCredentials env cf kf ctx).calls := by
  unfold applyCredentials
  by_cases h5 : env.checkKeyOk = false <;> simp_all

theorem applyCredentials_calls_no_cipher (env : LibEnv) (cf kf : String)
    (ctx : Option SSLCtx) (s : String) :
    LibCall.SSL_CTX_set_cipher_list s ∉ (applyCredentials env cf kf ctx).calls := by
  unfold applyCredentials
  by_cases h1 : cf = "" <;> by_cases h2 : env.useCertOk cf = false <;>
    by_cases h3 : kf = "" <;> by_cases h4 : env.useKeyOk kf = false <;>
      by_cases h5 : env.checkKeyOk = false <;> simp_all

theorem applyCredentials_calls_no_options (env : LibEnv) (cf kf : String)
    (ctx : Option SSLCtx) :
    LibCall.SSL_CTX_set_options ∉ (applyCredentials env cf kf ctx).calls := by
  unfold applyCredentials
  by_cases h1 : cf = "" <;> by_cases h2 : env.useCertOk cf = false <;>
    by_cases h3 : kf = "" <;> by_cases h4 : env.useKeyOk kf = false <;>
      by_cases h5 : env.checkKeyOk = false <;> simp_all

theorem applyCredentials_ctx_isSome (env : LibEnv) (cf kf : String)
    (ctx : Option SSLCtx) :
    ((applyCredentials env cf kf ctx).ctx).isSome = ctx.isSome := by
  unfold applyCredentials
  cases ctx <;>
    by_cases h1 : cf = "" <;> by_cases h2 : env.useCertOk cf = false <;>
      by_cases h3 : kf = "" <;> by_cases h4 : env.useKeyOk kf = false <;>
        by_cases h5 : env.checkKeyOk = false <;> simp_all

theorem applyCredentials_ctx_opt (env : LibEnv) (cf kf : String)
    (ctx : Option SSLCtx) :
    ((applyCredentials env cf kf ctx).ctx).map SSLCtx.optNoSSLv2
      = ctx.map SSLCtx.optNoSSLv2 := by
  unfold applyCredentials
  cases ctx <;>
    by_cases h1 : cf = "" <;> by_cases h2 : env.useCertOk cf = false <;>
      by_cases h3 : kf = "" <;> by_cases h4 : env.useKeyOk kf = false <;>
        by_cases h5 : env.checkKeyOk = false <;> simp_all

theorem applyCredentials_ctx_certApplied (env : LibEnv) (cf kf : String)
    (ctx : Option SSLCtx) (h1 : cf ≠ "") (h2 : env.useCertOk cf = true) :
    ((applyCredentials env cf kf ctx).ctx).map SSLCtx.certApplied
      = ctx.map (fun _ => true) := by
  unfold applyCredentials
  cases ctx <;>
    by_cases h3 : kf = "" <;> by_cases h4 : env.useKeyOk kf = false <;>
      by_cases h5 : env.checkKeyOk = false <;> simp_all

theorem applyCipherVerify_ok (env : LibEnv) (cl : String) (vp : Bool)
    (ctx : Option SSLCtx) :
    (applyCipherVerify env cl vp ctx).ok = env.setCipherOk cl := by
  unfold applyCipherVerify
  by_cases h : env.setCipherOk cl = false <;> simp_all

theorem applyCipherVerify_calls (env : LibEnv) (cl : String) (vp : Bool)
    (ctx : Option SSLCtx) :
    (applyCipherVerify env cl vp ctx).calls
      = if env.setCipherOk cl = true then
          [LibCall.SSL_CTX_set_cipher_list cl, LibCall.SSL_CTX_set_verify]
        else [LibCall.SSL_CTX_set_cipher_list cl] := by
  unfold applyCipherVerify
  by_cases h : env.setCipherOk cl = false <;> simp_all

theorem applyCipherVerify_ctx_isSome (env : LibEnv) (cl : String) (vp : Bool)
    (ctx : Option SSLCtx) :
    ((applyCipherVerify env cl vp ctx).ctx).isSome = ctx.isSome := by
  unfold applyCipherVerify
  cases ctx <;> by_cases h : env.setCipherOk cl = false <;> simp_all

theorem applyCipherVerify_ctx_opt (env : LibEnv) (cl : String) (vp : Bool)
    (ctx : Option SSLCtx) :
    ((applyCipherVerify env cl vp ctx).ctx).map SSLCtx.optNoSSLv2
      = ctx.map SSLCtx.optNoSSLv2 := by
  unfold applyCipherVerify
  cases ctx <;> by_cases h : env.setCipherOk cl = false <;> simp_all

theorem applyCipherVerify_ctx_certApplied (env : LibEnv) (cl : String)
    (vp : Bool) (ctx : Option SSLCtx) :
    ((applyCipherVerify env cl vp ctx).ctx).map SSLCtx.certApplied
      = ctx.map SSLCtx.certApplied := by
  unfold applyCipherVerify
  cases ctx <;> by_cases h : env.setCipherOk cl = false <;> simp_all


/-! Lifecycle traces for the process-wide ref count (claim about
`instance_count_`, lines 58-64 and 141-147). -/

/-- The global-state effect of `Finish` (lines 142-146), independent of the
manager instance performing it. -/
def teardownGlobal (g : GlobalState) : GlobalState :=
  (CryptoManagerImpl.Finish CryptoManagerImpl.new g).2

/-- A lifecycle event of manager instance `i`: its `Init` (Build) or its
`Finish` (Teardown). -/
inductive MgrEvent
  | build (i : Nat)
  | teardown (i : Nat)
  deriving DecidableEq

/-- Whether a lifecycle event is a Build. -/
def MgrEvent.isBuild : MgrEvent → Bool
  | .build _ => true
  | .teardown _ => false

/-- Effect of one lifecycle event on the process-wide state: `Init` runs
`bootstrapAndCount` (lines 58-64) and `Finish` runs the decrement/cleanup
(lines 142-146), whatever the per-manager arguments are. -/
def stepGlobal (g : GlobalState) : MgrEvent → GlobalState
  | .build _ => bootstrapAndCount g
  | .teardown _ => teardownGlobal g

/-- Run a sequence of lifecycle events from a process-wide state. -/
def runEvents (g : GlobalState) : List MgrEvent → GlobalState
  | [] => g
  | e :: es => runEvents (stepGlobal g e) es

theorem runEvents_append (g : GlobalState) (a b : List MgrEvent) :
    runEvents g (a ++ b) = runEvents (runEvents g a) b := by
  induction a generalizing g with
  | nil => rfl
  | cons e es ih => simp [runEvents, ih]

/-- Any `Init` has the global effect of one `build` event: the bootstrap
check plus the unconditional increment. -/
theorem Init_global_step (env : LibEnv) (o : Bool) (self : CryptoManagerImpl)
    (g : GlobalState) (mode : Mode) (protocol : Protocol)
    (cf kf cl : String) (vp : Bool) :
    (CryptoManagerImpl.Init env o self g mode protocol cf kf cl vp).global
      = stepGlobal g (MgrEvent.build 0) :=
  Init_global env o self g mode protocol cf kf cl vp

/-- Any `Finish` has the global effect of one `teardown` event. -/
theorem Finish_global_step (self : CryptoManagerImpl) (g : GlobalState) :
    (CryptoManagerImpl.Finish self g).2 = stepGlobal g (MgrEvent.teardown 0) := by
  show (CryptoManagerImpl.Finish self g).2 = teardownGlobal g
  unfold teardownGlobal CryptoManagerImpl.Finish
  by_cases h : g.instance_count_ - 1 = 0 <;> simp [h]

theorem teardownGlobal_count (g : GlobalState) :
    (teardownGlobal g).instance_count_ = g.instance_count_ - 1 := by
  unfold teardownGlobal CryptoManagerImpl.Finish
  by_cases h : g.instance_count_ - 1 = 0 <;> simp [h]

theorem teardownGlobal_frees (g : GlobalState) :
    (teardownGlobal g).engineFrees
      = g.engineFrees + (if g.instance_count_ - 1 = 0 then 1 else 0) := by
  unfold teardownGlobal CryptoManagerImpl.Finish
  by_cases h : g.instance_count_ - 1 = 0 <;> simp [h]

/-- Effect of a pure Build phase: each event adds one to the count and
never frees engine-wide resources. -/
theorem runEvents_builds (bs : List MgrEvent) (g : GlobalState)
    (hb : ∀ e ∈ bs, e.isBuild = true) :
    (runEvents g bs).instance_count_ = g.instance_count_ + bs.length
      ∧ (runEvents g bs).engineFrees = g.engineFrees := by
  induction bs generalizing g with
  | nil => simp [runEvents]
  | cons e es ih =>
    cases e with
    | build i =>
      have h := ih (bootstrapAndCount g) (fun x hx => hb x (List.mem_cons_of_mem _ hx))
      refine ⟨?_, ?_⟩
      · rw [runEvents, stepGlobal, h.1, bootstrapAndCount_count]
        simp only [List.length_cons]
        push_cast
        omega
      · rw [runEvents, stepGlobal, h.2, bootstrapAndCount_frees]
    | teardown i =>
      have := hb (MgrEvent.teardown i) (List.mem_cons_self _ _)
      simp [MgrEvent.isBuild] at this

/-- Effect of a pure Teardown phase started with `c` live managers: after
`k ≤ c` teardowns the count is `c - k`, and the engine-wide cleanup has run
exactly once if this finished off all `c` managers (`k = c`, `0 < k`) and
not at all otherwise. -/
theorem runEvents_teardowns (ts : List MgrEvent) (g : GlobalState)
    (ht : ∀ e ∈ ts, e.isBuild = false)
    (hk : (ts.length : Int) ≤ g.instance_count_) :
    (runEvents g ts).instance_count_ = g.instance_count_ - ts.length
      ∧ (runEvents g ts).engineFrees
        = g.engineFrees
          + (if (ts.length : Int) = g.instance_count_ ∧ 0 < ts.length then 1 else 0) := by
  induction ts generalizing g with
  | nil => simp [runEvents]
  | cons e es ih =>
    cases e with
    | build i =>
      have := ht (MgrEvent.build i) (List.mem_cons_self _ _)
      simp [MgrEvent.isBuild] at this
    | teardown i =>
      have hlen : ((es.length : Int) + 1) ≤ g.instance_count_ := by
        simp only [List.length_cons] at hk
        push_cast at hk
        omega
      have h := ih (teardownGlobal g)
        (fun x hx => ht x (List.mem_cons_of_mem _ hx))
        (by rw [teardownGlobal_count]; omega)
      refine ⟨?_, ?_⟩
      · rw [runEvents, stepGlobal, h.1, teardownGlobal_count]
        simp only [List.length_cons]
        push_cast
        omega
      · rw [runEvents, stepGlobal, h.2, teardownGlobal_frees, teardownGlobal_count]
        simp only [List.length_cons]
        split_ifs <;> push_cast at * <;> omega


/-! Further helper lemmas. -/

theorem allocContext_ctx_isSome (env : LibEnv) (protocol : Protocol)
    (m : SSLMethod) :
    ((allocContext env protocol m).ctx).isSome = env.ctxNewOk m := by
  by_cases h : env.ctxNewOk m = true
  · rw [allocContext_ctx_some env protocol m h, h]
    rfl
  · have h' : env.ctxNewOk m = false := by
      cases hv : env.ctxNewOk m <;> simp_all
    rw [allocContext_ctx_none env protocol m h', h']
    rfl

theorem allocContext_calls_no_key (env : LibEnv) (protocol : Protocol)
    (m : SSLMethod) (p : String) :
    LibCall.SSL_CTX_use_PrivateKey_file p ∉ (allocContext env protocol m).calls := by
  rw [allocContext_calls]
  split <;> simp

theorem allocContext_calls_no_cipher (env : LibEnv) (protocol : Protocol)
    (m : SSLMethod) (s : String) :
    LibCall.SSL_CTX_set_cipher_list s ∉ (allocContext env protocol m).calls := by
  rw [allocContext_calls]
  split <;> simp

theorem applyCipherVerify_calls_no_key (env : LibEnv) (cl : String) (vp : Bool)
    (ctx : Option SSLCtx) (p : String) :
    LibCall.SSL_CTX_use_PrivateKey_file p ∉ (applyCipherVerify env cl vp ctx).calls := by
  rw [applyCipherVerify_calls]
  split <;> simp

theorem applyCipherVerify_calls_no_options (env : LibEnv) (cl : String)
    (vp : Bool) (ctx : Option SSLCtx) :
    LibCall.SSL_CTX_set_options ∉ (applyCipherVerify env cl vp ctx).calls := by
  rw [applyCipherVerify_calls]
  split <;> simp

theorem applyCipherVerify_calls_cipher_mem (env : LibEnv) (cl : String)
    (vp : Bool) (ctx : Option SSLCtx) :
    LibCall.SSL_CTX_set_cipher_list cl ∈ (applyCipherVerify env cl vp ctx).calls := by
  rw [applyCipherVerify_calls]
  split <;> simp

theorem applyCipherVerify_calls_verify_mem (env : LibEnv) (cl : String)
    (vp : Bool) (ctx : Option SSLCtx) (h : env.setCipherOk cl = true) :
    LibCall.SSL_CTX_set_verify ∈ (applyCipherVerify env cl vp ctx).calls := by
  rw [applyCipherVerify_calls, if_pos h]
  simp

/-- `CreateSSLContext` on a manager holding no context returns null
(lines 150-152). -/
theorem CreateSSLContext_none (env : LibEnv) (st : CryptoManagerImpl)
    (h : st.context_ = none) :
    CryptoManagerImpl.CreateSSLContext env st = none := by
  unfold CryptoManagerImpl.CreateSSLContext
  rw [h]

/-- `CreateSSLContext` on a manager holding a context, when `SSL_new`
succeeds, returns the channel of lines 154-164. -/
theorem CreateSSLContext_some (env : LibEnv) (st : CryptoManagerImpl)
    (c : SSLCtx) (hc : st.context_ = some c) (h : env.sslNewOk = true) :
    CryptoManagerImpl.CreateSSLContext env st
      = some { conn := { ctx := c
                         hstate := if st.mode_.isServer then HandshakeState.accept_state
                                   else HandshakeState.connect_state }
               mode := st.mode_ } := by
  unfold CryptoManagerImpl.CreateSSLContext
  rw [hc]
  simp [h]

/-- After an `Init` whose method resolution succeeded, the stored context is
live exactly when `SSL_CTX_new` succeeded. -/
theorem Init_context_isSome (env : LibEnv) (o : Bool)
    (self : CryptoManagerImpl) (g : GlobalState) (mode : Mode)
    (protocol : Protocol) (cf kf cl : String) (vp : Bool) (m : SSLMethod)
    (hm : resolveMethod o mode.isServer protocol = some m) :
    ((CryptoManagerImpl.Init env o self g mode protocol cf kf cl vp).mgr.context_).isSome
      = env.ctxNewOk m := by
  rw [Init_of_resolve_some env o self g mode protocol cf kf cl vp m hm]
  by_cases hcr : (applyCredentials env cf kf (allocContext env protocol m).ctx).ok = false
  · rw [if_pos hcr]
    rw [applyCredentials_ctx_isSome, allocContext_ctx_isSome]
  · rw [if_neg hcr]
    rw [applyCipherVerify_ctx_isSome, applyCredentials_ctx_isSome,
      allocContext_ctx_isSome]

/-- After an `Init` whose method resolution succeeded, the stored context
carries the `SSL_OP_NO_SSLv2` flag exactly as the allocation block set it. -/
theorem Init_context_opt (env : LibEnv) (o : Bool)
    (self : CryptoManagerImpl) (g : GlobalState) (mode : Mode)
    (protocol : Protocol) (cf kf cl : String) (vp : Bool) (m : SSLMethod)
    (hm : resolveMethod o mode.isServer protocol = some m) :
    ((CryptoManagerImpl.Init env o self g mode protocol cf kf cl vp).mgr.context_).map
        SSLCtx.optNoSSLv2
      = ((allocContext env protocol m).ctx).map SSLCtx.optNoSSLv2 := by
  rw [Init_of_resolve_some env o self g mode protocol cf kf cl vp m hm]
  by_cases hcr : (applyCredentials env cf kf (allocContext env protocol m).ctx).ok = false
  · rw [if_pos hcr]
    rw [applyCredentials_ctx_opt]
  · rw [if_neg hcr]
    rw [applyCipherVerify_ctx_opt, applyCredentials_ctx_opt]

/-- Concrete oracle: every library call succeeds. -/
def envAllOk : LibEnv :=
  { ctxNewOk := fun _ => true
    useCertOk := fun _ => true
    useKeyOk := fun _ => true
    checkKeyOk := true
    setCipherOk := fun _ => true
    sslNewOk := true }

/-- Concrete oracle: `SSL_CTX_new` fails, everything else succeeds. -/
def envNoCtx : LibEnv :=
  { envAllOk with ctxNewOk := fun _ => false }

/-- Concrete oracle: `SSL_new` fails, everything else succeeds. -/
def envNoConn : LibEnv :=
  { envAllOk with sslNewOk := false }

/-- Concrete oracle: the key does not match the certificate
(`SSL_CTX_check_private_key` fails), everything else succeeds. -/
def envBadCheck : LibEnv :=
  { envAllOk with checkKeyOk := false }

/-- Concrete oracle: the cipher list is rejected, everything else succeeds. -/
def envBadCipher : LibEnv :=
  { envAllOk with setCipherOk := fun _ => false }


/-! Claim theorems. -/

/-- Claim C1: for every supported combination of protocol and role (the
`switch` resolves a method; the library can allocate the context and the
per-connection object), a successful `Init` followed immediately by
`CreateSSLContext` returns a non-null channel whose handshake direction
matches the manager's mode — accept state for `SERVER`, connect state for
`CLIENT` — and `CreateSSLContext` returns null whenever no `SSL_CTX`
exists (`Init` never ran, or failed before allocating one). -/
theorem Init_then_CreateSSLContext (env : LibEnv) (o : Bool)
    (self : CryptoManagerImpl) (g : GlobalState) (mode : Mode)
    (protocol : Protocol) (cf kf cl : String) (vp : Bool) (m : SSLMethod)
    (hm : resolveMethod o mode.isServer protocol = some m)
    (hctx : env.ctxNewOk m = true)
    (hconn : env.sslNewOk = true)
    (_hret : (CryptoManagerImpl.Init env o self g mode protocol cf kf cl vp).ret = true) :
    (∃ ch, CryptoManagerImpl.CreateSSLContext env
        (CryptoManagerImpl.Init env o self g mode protocol cf kf cl vp).mgr = some ch
      ∧ ch.conn.hstate = (if mode.isServer then HandshakeState.accept_state
          else HandshakeState.connect_state)
      ∧ ch.mode = mode)
    ∧ (∀ st : CryptoManagerImpl, st.context_ = none →
        CryptoManagerImpl.CreateSSLContext env st = none) := by
  constructor
  · have hs := Init_context_isSome env o self g mode protocol cf kf cl vp m hm
    rw [hctx] at hs
    obtain ⟨c, hc⟩ := Option.isSome_iff_exists.mp hs
    refine ⟨_, CreateSSLContext_some env _ c hc hconn, ?_, ?_⟩
    · rw [Init_mode]
    · rw [Init_mode]
  · intro st h
    exact CreateSSLContext_none env st h

/-- Witness for C1: server TLSv1.2 build with a cooperative library gives
an accept-state channel. -/
theorem Init_then_CreateSSLContext_witness :
    resolveMethod true Mode.SERVER.isServer Protocol.TLSv1_2
        = some SSLMethod.TLSv1_2_server
    ∧ envAllOk.ctxNewOk SSLMethod.TLSv1_2_server = true
    ∧ envAllOk.sslNewOk = true
    ∧ (CryptoManagerImpl.Init envAllOk true CryptoManagerImpl.new initialGlobal
        Mode.SERVER Protocol.TLSv1_2 "" "" "ALL" true).ret = true
    ∧ ((∃ ch, CryptoManagerImpl.CreateSSLContext envAllOk
          (CryptoManagerImpl.Init envAllOk true CryptoManagerImpl.new initialGlobal
            Mode.SERVER Protocol.TLSv1_2 "" "" "ALL" true).mgr = some ch
        ∧ ch.conn.hstate = (if Mode.SERVER.isServer then HandshakeState.accept_state
            else HandshakeState.connect_state)
        ∧ ch.mode = Mode.SERVER)
      ∧ (∀ st : CryptoManagerImpl, st.context_ = none →
          CryptoManagerImpl.CreateSSLContext envAllOk st = none)) :=
  ⟨rfl, rfl, rfl, rfl,
    Init_then_CreateSSLContext envAllOk true CryptoManagerImpl.new initialGlobal
      Mode.SERVER Protocol.TLSv1_2 "" "" "ALL" true SSLMethod.TLSv1_2_server
      rfl rfl rfl rfl⟩

/-- Claim C3 counterexample: `Init` never null-checks the result of
`SSL_CTX_new` (line 105).  With an oracle where allocation fails and the
remaining configuration calls succeed, `Init` returns success while the
stored context is null — so allocation failure is not fatal to the build
and a null context is treated as a successful build, contradicting the
claim. -/
theorem Init_alloc_failure_counterexample :
    (CryptoManagerImpl.Init envNoCtx true CryptoManagerImpl.new initialGlobal
        Mode.CLIENT Protocol.TLSv1_2 "" "" "ALL" false).ret = true
    ∧ (CryptoManagerImpl.Init envNoCtx true CryptoManagerImpl.new initialGlobal
        Mode.CLIENT Protocol.TLSv1_2 "" "" "ALL" false).mgr.context_ = none :=
  ⟨rfl, rfl⟩

/-- Claim C3 (amended): when `SSL_CTX_new` returns null, `Init` stores the
null result unchecked — its return value is decided solely by the later
configuration calls — and `CreateSSLContext` on the resulting manager
always returns null. -/
theorem Init_alloc_failure_null_context (env : LibEnv) (o : Bool)
    (self : CryptoManagerImpl) (g : GlobalState) (mode : Mode)
    (protocol : Protocol) (cf kf cl : String) (vp : Bool) (m : SSLMethod)
    (hm : resolveMethod o mode.isServer protocol = some m)
    (hctx : env.ctxNewOk m = false) :
    (CryptoManagerImpl.Init env o self g mode protocol cf kf cl vp).mgr.context_ = none
    ∧ CryptoManagerImpl.CreateSSLContext env
        (CryptoManagerImpl.Init env o self g mode protocol cf kf cl vp).mgr = none := by
  have hs := Init_context_isSome env o self g mode protocol cf kf cl vp m hm
  rw [hctx] at hs
  have hnone : (CryptoManagerImpl.Init env o self g mode protocol cf kf cl vp).mgr.context_
      = none := by
    cases hopt : (CryptoManagerImpl.Init env o self g mode protocol cf kf cl vp).mgr.context_ with
    | none => rfl
    | some c => rw [hopt] at hs; simp at hs
  exact ⟨hnone, CreateSSLContext_none env _ hnone⟩

/-- Witness for the amended C3. -/
theorem Init_alloc_failure_null_context_witness :
    resolveMethod true Mode.CLIENT.isServer Protocol.TLSv1_1
        = some SSLMethod.TLSv1_1_client
    ∧ envNoCtx.ctxNewOk SSLMethod.TLSv1_1_client = false
    ∧ ((CryptoManagerImpl.Init envNoCtx true CryptoManagerImpl.new initialGlobal
          Mode.CLIENT Protocol.TLSv1_1 "" "" "ALL" false).mgr.context_ = none
      ∧ CryptoManagerImpl.CreateSSLContext envNoCtx
          (CryptoManagerImpl.Init envNoCtx true CryptoManagerImpl.new initialGlobal
            Mode.CLIENT Protocol.TLSv1_1 "" "" "ALL" false).mgr = none) :=
  ⟨rfl, rfl,
    Init_alloc_failure_null_context envNoCtx true CryptoManagerImpl.new initialGlobal
      Mode.CLIENT Protocol.TLSv1_1 "" "" "ALL" false SSLMethod.TLSv1_1_client rfl rfl⟩

/-- Claim C4: a protocol unsupported by the linked library build (TLSv1.1
or TLSv1.2 before OpenSSL 1.0.1) or an unknown protocol value makes `Init`
return failure from inside the `switch`, with no context allocation (the
call trace is empty and the fresh manager's context stays null), so a
subsequent `CreateSSLContext` returns null. -/
theorem Init_unsupported_protocol (env : LibEnv) (o : Bool) (g : GlobalState)
    (mode : Mode) (protocol : Protocol) (cf kf cl : String) (vp : Bool)
    (h : (o = false ∧ (protocol = Protocol.TLSv1_1 ∨ protocol = Protocol.TLSv1_2))
        ∨ protocol = Protocol.UNKNOWN) :
    (CryptoManagerImpl.Init env o CryptoManagerImpl.new g mode protocol cf kf cl vp).ret = false
    ∧ (CryptoManagerImpl.Init env o CryptoManagerImpl.new g mode protocol cf kf cl vp).mgr.context_ = none
    ∧ (CryptoManagerImpl.Init env o CryptoManagerImpl.new g mode protocol cf kf cl vp).calls = []
    ∧ CryptoManagerImpl.CreateSSLContext env
        (CryptoManagerImpl.Init env o CryptoManagerImpl.new g mode protocol cf kf cl vp).mgr = none := by
  have hm : resolveMethod o mode.isServer protocol = none := by
    rcases h with ⟨rfl, rfl | rfl⟩ | rfl <;> rfl
  rw [Init_of_resolve_none env o CryptoManagerImpl.new g mode protocol cf kf cl vp hm]
  exact ⟨rfl, rfl, rfl, CreateSSLContext_none env _ rfl⟩

/-- Witness for C4: TLSv1.1 requested while the linked library predates
1.0.1. -/
theorem Init_unsupported_protocol_witness :
    ((false = false ∧ (Protocol.TLSv1_1 = Protocol.TLSv1_1
        ∨ Protocol.TLSv1_1 = Protocol.TLSv1_2))
      ∨ Protocol.TLSv1_1 = Protocol.UNKNOWN)
    ∧ ((CryptoManagerImpl.Init envAllOk false CryptoManagerImpl.new initialGlobal
          Mode.SERVER Protocol.TLSv1_1 "c.pem" "k.pem" "ALL" true).ret = false
      ∧ (CryptoManagerImpl.Init envAllOk false CryptoManagerImpl.new initialGlobal
          Mode.SERVER Protocol.TLSv1_1 "c.pem" "k.pem" "ALL" true).mgr.context_ = none
      ∧ (CryptoManagerImpl.Init envAllOk false CryptoManagerImpl.new initialGlobal
          Mode.SERVER Protocol.TLSv1_1 "c.pem" "k.pem" "ALL" true).calls = []
      ∧ CryptoManagerImpl.CreateSSLContext envAllOk
          (CryptoManagerImpl.Init envAllOk false CryptoManagerImpl.new initialGlobal
            Mode.SERVER Protocol.TLSv1_1 "c.pem" "k.pem" "ALL" true).mgr = none) :=
  ⟨Or.inl ⟨rfl, Or.inl rfl⟩,
    Init_unsupported_protocol envAllOk false initialGlobal Mode.SERVER
      Protocol.TLSv1_1 "c.pem" "k.pem" "ALL" true (Or.inl ⟨rfl, Or.inl rfl⟩)⟩

/-- A concrete manager already holding a live context. -/
def mgrWithCtx : CryptoManagerImpl :=
  { context_ := some (SSLCtx.fresh SSLMethod.TLSv1_2_server), mode_ := Mode.SERVER }

/-- Claim C10: `CreateSSLContext` can return null even when a context
exists — when `SSL_new` fails (lines 154-156) — and every channel it ever
returns wraps a connection bound to the manager's stored context and
carries the manager's mode. -/
theorem CreateSSLContext_channel (env : LibEnv) (st : CryptoManagerImpl) :
    (∀ c, st.context_ = some c → env.sslNewOk = false →
        CryptoManagerImpl.CreateSSLContext env st = none)
    ∧ (∀ ch, CryptoManagerImpl.CreateSSLContext env st = some ch →
        ∃ c, st.context_ = some c ∧ ch.conn.ctx = c ∧ ch.mode = st.mode_) := by
  constructor
  · intro c hc hn
    unfold CryptoManagerImpl.CreateSSLContext
    rw [hc]
    simp [hn]
  · intro ch hch
    unfold CryptoManagerImpl.CreateSSLContext at hch
    cases hc : st.context_ with
    | none => rw [hc] at hch; simp at hch
    | some c =>
      rw [hc] at hch
      by_cases hn : env.sslNewOk = false
      · simp [hn] at hch
      · simp [hn] at hch
        subst hch
        exact ⟨c, rfl, rfl, rfl⟩

/-- Witness for C10: a live context but a failing `SSL_new` yields null. -/
theorem CreateSSLContext_channel_witness :
    mgrWithCtx.context_ = some (SSLCtx.fresh SSLMethod.TLSv1_2_server)
    ∧ envNoConn.sslNewOk = false
    ∧ CryptoManagerImpl.CreateSSLContext envNoConn mgrWithCtx = none :=
  ⟨rfl, rfl, (CreateSSLContext_channel envNoConn mgrWithCtx).1 _ rfl rfl⟩


/-- Claim C2: for `N > 0` managers, performing the `Init` of each and then
the `Finish` of each — any order inside each phase — frees the engine-wide
resources exactly once and only at the very last `Finish` (so never while
a built manager is still live), `instance_count_` is never negative at any
point of the trace, and the trace ends balanced at zero. -/
theorem refcount_lifecycle (n : Nat) (bs ts : List MgrEvent)
    (hn : 0 < n)
    (hb : ∀ e ∈ bs, e.isBuild = true)
    (ht : ∀ e ∈ ts, e.isBuild = false)
    (hbn : bs.length = n) (htn : ts.length = n) :
    (runEvents initialGlobal (bs ++ ts)).engineFrees = 1
    ∧ (runEvents initialGlobal (bs ++ ts)).instance_count_ = 0
    ∧ (∀ p q : List MgrEvent, p ++ q = bs ++ ts →
        0 ≤ (runEvents initialGlobal p).instance_count_)
    ∧ (∀ p q : List MgrEvent, p ++ q = bs ++ ts → q ≠ [] →
        (runEvents initialGlobal p).engineFrees = 0) := by
  have hB := runEvents_builds bs initialGlobal hb
  have hcount : (runEvents initialGlobal bs).instance_count_ = (n : Int) := by
    rw [hB.1, hbn]
    simp [initialGlobal]
  have hfrees : (runEvents initialGlobal bs).engineFrees = 0 := by
    rw [hB.2]
    rfl
  have hT := runEvents_teardowns ts (runEvents initialGlobal bs) ht
    (by rw [hcount, htn])
  refine ⟨?_, ?_, ?_, ?_⟩
  · rw [runEvents_append, hT.2, hfrees, hcount, htn]
    simp [hn]
  · rw [runEvents_append, hT.1, hcount, htn]
    omega
  · intro p q hpq
    rcases List.append_eq_append_iff.mp hpq with ⟨a1, hbs, _⟩ | ⟨c1, hp, hts⟩
    · have hbp : ∀ e ∈ p, e.isBuild = true := fun e he =>
        hb e (by rw [hbs]; exact List.mem_append_left _ he)
      rw [(runEvents_builds p initialGlobal hbp).1]
      simp [initialGlobal]
    · have htc : ∀ e ∈ c1, e.isBuild = false := fun e he =>
        ht e (by rw [hts]; exact List.mem_append_left _ he)
      have hlc : (c1.length : Int) ≤ (n : Int) := by
        have h1 : c1.length + q.length = ts.length := by rw [hts]; simp
        omega
      subst hp
      rw [runEvents_append]
      have h2 := runEvents_teardowns c1 (runEvents initialGlobal bs) htc
        (by rw [hcount]; exact hlc)
      rw [h2.1, hcount]
      omega
  · intro p q hpq hq
    rcases List.append_eq_append_iff.mp hpq with ⟨a1, hbs, _⟩ | ⟨c1, hp, hts⟩
    · have hbp : ∀ e ∈ p, e.isBuild = true := fun e he =>
        hb e (by rw [hbs]; exact List.mem_append_left _ he)
      rw [(runEvents_builds p initialGlobal hbp).2]
      rfl
    · have htc : ∀ e ∈ c1, e.isBuild = false := fun e he =>
        ht e (by rw [hts]; exact List.mem_append_left _ he)
      have hq0 : q.length ≠ 0 := fun h0 => hq (List.length_eq_zero.mp h0)
      have hlt : c1.length < n := by
        have h1 : c1.length + q.length = ts.length := by rw [hts]; simp
        omega
      subst hp
      rw [runEvents_append]
      have h2 := runEvents_teardowns c1 (runEvents initialGlobal bs) htc
        (by rw [hcount]; omega)
      rw [h2.2, hfrees, hcount]
      have hne : ¬((c1.length : Int) = (n : Int) ∧ 0 < c1.length) := by omega
      rw [if_neg hne]

/-- Witness for C2: one manager, one `Init` then one `Finish`. -/
theorem refcount_lifecycle_witness :
    0 < 1
    ∧ (∀ e ∈ [MgrEvent.build 0], e.isBuild = true)
    ∧ (∀ e ∈ [MgrEvent.teardown 0], e.isBuild = false)
    ∧ [MgrEvent.build 0].length = 1
    ∧ [MgrEvent.teardown 0].length = 1
    ∧ ((runEvents initialGlobal ([MgrEvent.build 0] ++ [MgrEvent.teardown 0])).engineFrees = 1
      ∧ (runEvents initialGlobal ([MgrEvent.build 0] ++ [MgrEvent.teardown 0])).instance_count_ = 0
      ∧ (∀ p q : List MgrEvent, p ++ q = [MgrEvent.build 0] ++ [MgrEvent.teardown 0] →
          0 ≤ (runEvents initialGlobal p).instance_count_)
      ∧ (∀ p q : List MgrEvent, p ++ q = [MgrEvent.build 0] ++ [MgrEvent.teardown 0] → q ≠ [] →
          (runEvents initialGlobal p).engineFrees = 0)) :=
  ⟨Nat.one_pos, by decide, by decide, rfl, rfl,
    refcount_lifecycle 1 [MgrEvent.build 0] [MgrEvent.teardown 0]
      Nat.one_pos (by decide) (by decide) rfl rfl⟩


/-- Claim C5: a certificate path with no key path is valid — once the
certificate loads, the build goes straight to the cipher step, whose
outcome alone decides the result — and the key-load call appears in a run
only when a certificate path was given, its load succeeded, and the key
path is non-empty; the certificate call is then also in the trace.  In
particular an empty certificate path, or an empty key path, means the key
path is never consulted. -/
theorem Init_cert_without_key (env : LibEnv) (o : Bool)
    (self : CryptoManagerImpl) (g : GlobalState) (mode : Mode)
    (protocol : Protocol) (cf kf cl : String) (vp : Bool) :
    (∀ m, resolveMethod o mode.isServer protocol = some m →
      cf ≠ "" → kf = "" → env.useCertOk cf = true →
      (CryptoManagerImpl.Init env o self g mode protocol cf kf cl vp).ret
          = env.setCipherOk cl
      ∧ LibCall.SSL_CTX_set_cipher_list cl
          ∈ (CryptoManagerImpl.Init env o self g mode protocol cf kf cl vp).calls)
    ∧ (∀ p, LibCall.SSL_CTX_use_PrivateKey_file p
          ∈ (CryptoManagerImpl.Init env o self g mode protocol cf kf cl vp).calls →
        cf ≠ "" ∧ env.useCertOk cf = true ∧ kf ≠ "" ∧ p = kf
        ∧ LibCall.SSL_CTX_use_certificate_file cf
            ∈ (CryptoManagerImpl.Init env o self g mode protocol cf kf cl vp).calls) := by
  constructor
  · intro m hm hcf hkf hcert
    rw [Init_of_resolve_some env o self g mode protocol cf kf cl vp m hm]
    have hok : (applyCredentials env cf kf (allocContext env protocol m).ctx).ok = true :=
      (applyCredentials_ok_iff env cf kf _).mpr (Or.inr ⟨hcert, Or.inl hkf⟩)
    have hne : ¬((applyCredentials env cf kf (allocContext env protocol m).ctx).ok = false) := by
      rw [hok]
      simp
    rw [if_neg hne]
    constructor
    · exact applyCipherVerify_ok env cl vp _
    · exact List.mem_append_right _ (applyCipherVerify_calls_cipher_mem env cl vp _)
  · intro p hp
    cases hm : resolveMethod o mode.isServer protocol with
    | none =>
      rw [Init_of_resolve_none env o self g mode protocol cf kf cl vp hm] at hp
      simp at hp
    | some m =>
      rw [Init_of_resolve_some env o self g mode protocol cf kf cl vp m hm] at hp ⊢
      by_cases hcr : (applyCredentials env cf kf (allocContext env protocol m).ctx).ok = false
      · rw [if_pos hcr] at hp ⊢
        rcases List.mem_append.mp hp with h | h
        · exact absurd h (allocContext_calls_no_key env protocol m p)
        · obtain ⟨h1, h2, h3, h4⟩ := (applyCredentials_calls_key_mem env cf kf _ p).mp h
          exact ⟨h1, h2, h3, h4,
            List.mem_append_right _ (applyCredentials_calls_cert_mem env cf kf _ h1)⟩
      · rw [if_neg hcr] at hp ⊢
        rcases List.mem_append.mp hp with h | h
        · rcases List.mem_append.mp h with h1 | h1
          · exact absurd h1 (allocContext_calls_no_key env protocol m p)
          · obtain ⟨h1, h2, h3, h4⟩ := (applyCredentials_calls_key_mem env cf kf _ p).mp h1
            exact ⟨h1, h2, h3, h4, List.mem_append_left _
              (List.mem_append_right _ (applyCredentials_calls_cert_mem env cf kf _ h1))⟩
        · exact absurd h (applyCipherVerify_calls_no_key env cl vp _ p)

/-- Witness for C5: certificate given, key path empty, cooperative
library. -/
theorem Init_cert_without_key_witness :
    resolveMethod true Mode.SERVER.isServer Protocol.TLSv1_2
        = some SSLMethod.TLSv1_2_server
    ∧ "c.pem" ≠ ""
    ∧ ("" : String) = ""
    ∧ envAllOk.useCertOk "c.pem" = true
    ∧ ((CryptoManagerImpl.Init envAllOk true CryptoManagerImpl.new initialGlobal
          Mode.SERVER Protocol.TLSv1_2 "c.pem" "" "HIGH" true).ret
            = envAllOk.setCipherOk "HIGH"
      ∧ LibCall.SSL_CTX_set_cipher_list "HIGH"
          ∈ (CryptoManagerImpl.Init envAllOk true CryptoManagerImpl.new initialGlobal
              Mode.SERVER Protocol.TLSv1_2 "c.pem" "" "HIGH" true).calls) :=
  ⟨rfl, by decide, rfl, rfl,
    (Init_cert_without_key envAllOk true CryptoManagerImpl.new initialGlobal
        Mode.SERVER Protocol.TLSv1_2 "c.pem" "" "HIGH" true).1
      SSLMethod.TLSv1_2_server rfl (by decide) rfl rfl⟩

/-- Claim C6: with both a certificate and a key path and both loads
succeeding, a failing `SSL_CTX_check_private_key` (key from a different
pair) makes `Init` fail — after both load calls and the check are in the
trace — while a passing check lets the build proceed past the credential
step to the cipher step, whose outcome then decides the result. -/
theorem Init_key_mismatch (env : LibEnv) (o : Bool)
    (self : CryptoManagerImpl) (g : GlobalState) (mode : Mode)
    (protocol : Protocol) (cf kf cl : String) (vp : Bool) (m : SSLMethod)
    (hm : resolveMethod o mode.isServer protocol = some m)
    (hcf : cf ≠ "") (hkf : kf ≠ "")
    (hcert : env.useCertOk cf = true) (hkey : env.useKeyOk kf = true) :
    (env.checkKeyOk = false →
      (CryptoManagerImpl.Init env o self g mode protocol cf kf cl vp).ret = false
      ∧ LibCall.SSL_CTX_use_certificate_file cf
          ∈ (CryptoManagerImpl.Init env o self g mode protocol cf kf cl vp).calls
      ∧ LibCall.SSL_CTX_use_PrivateKey_file kf
          ∈ (CryptoManagerImpl.Init env o self g mode protocol cf kf cl vp).calls
      ∧ LibCall.SSL_CTX_check_private_key
          ∈ (CryptoManagerImpl.Init env o self g mode protocol cf kf cl vp).calls)
    ∧ (env.checkKeyOk = true →
      (CryptoManagerImpl.Init env o self g mode protocol cf kf cl vp).ret
          = env.setCipherOk cl
      ∧ LibCall.SSL_CTX_set_cipher_list cl
          ∈ (CryptoManagerImpl.Init env o self g mode protocol cf kf cl vp).calls) := by
  constructor
  · intro hchk
    have hcr : (applyCredentials env cf kf (allocContext env protocol m).ctx).ok = false := by
      cases hv : (applyCredentials env cf kf (allocContext env protocol m).ctx).ok
      · rfl
      · have := (applyCredentials_ok_iff env cf kf _).mp hv
        simp_all
    rw [Init_of_resolve_some env o self g mode protocol cf kf cl vp m hm, if_pos hcr]
    refine ⟨rfl, ?_, ?_, ?_⟩
    · exact List.mem_append_right _ (applyCredentials_calls_cert_mem env cf kf _ hcf)
    · exact List.mem_append_right _
        ((applyCredentials_calls_key_mem env cf kf _ kf).mpr ⟨hcf, hcert, hkf, rfl⟩)
    · exact List.mem_append_right _
        (applyCredentials_calls_check_mem env cf kf _ hcf hcert hkf hkey)
  · intro hchk
    have hok : (applyCredentials env cf kf (allocContext env protocol m).ctx).ok = true :=
      (applyCredentials_ok_iff env cf kf _).mpr (Or.inr ⟨hcert, Or.inr ⟨hkey, hchk⟩⟩)
    have hne : ¬((applyCredentials env cf kf (allocContext env protocol m).ctx).ok = false) := by
      rw [hok]
      simp
    rw [Init_of_resolve_some env o self g mode protocol cf kf cl vp m hm, if_neg hne]
    exact ⟨applyCipherVerify_ok env cl vp _,
      List.mem_append_right _ (applyCipherVerify_calls_cipher_mem env cl vp _)⟩

/-- Witness for C6: a key from a different pair (failing check) makes the
build fail after both loads. -/
theorem Init_key_mismatch_witness :
    resolveMethod true Mode.SERVER.isServer Protocol.TLSv1_2
        = some SSLMethod.TLSv1_2_server
    ∧ "c.pem" ≠ ""
    ∧ "other.key" ≠ ""
    ∧ envBadCheck.useCertOk "c.pem" = true
    ∧ envBadCheck.useKeyOk "other.key" = true
    ∧ envBadCheck.checkKeyOk = false
    ∧ ((CryptoManagerImpl.Init envBadCheck true CryptoManagerImpl.new initialGlobal
          Mode.SERVER Protocol.TLSv1_2 "c.pem" "other.key" "HIGH" true).ret = false
      ∧ LibCall.SSL_CTX_use_certificate_file "c.pem"
          ∈ (CryptoManagerImpl.Init envBadCheck true CryptoManagerImpl.new initialGlobal
              Mode.SERVER Protocol.TLSv1_2 "c.pem" "other.key" "HIGH" true).calls
      ∧ LibCall.SSL_CTX_use_PrivateKey_file "other.key"
          ∈ (CryptoManagerImpl.Init envBadCheck true CryptoManagerImpl.new initialGlobal
              Mode.SERVER Protocol.TLSv1_2 "c.pem" "other.key" "HIGH" true).calls
      ∧ LibCall.SSL_CTX_check_private_key
          ∈ (CryptoManagerImpl.Init envBadCheck true CryptoManagerImpl.new initialGlobal
              Mode.SERVER Protocol.TLSv1_2 "c.pem" "other.key" "HIGH" true).calls) :=
  ⟨rfl, by decide, by decide, rfl, rfl, rfl,
    (Init_key_mismatch envBadCheck true CryptoManagerImpl.new initialGlobal
        Mode.SERVER Protocol.TLSv1_2 "c.pem" "other.key" "HIGH" true
        SSLMethod.TLSv1_2_server rfl (by decide) (by decide) rfl rfl).1 rfl⟩


/-- Claim C7: if the cipher-list call is in a run's trace and the library
rejects the list, `Init` returns failure; and whenever the credential step
passes (no certificate, or certificate loaded with no key, or certificate,
key and check all passing) and the library accepts a cipher list, `Init`
returns success and the verify-policy call is performed. -/
theorem Init_cipher_policy (env : LibEnv) (o : Bool)
    (self : CryptoManagerImpl) (g : GlobalState) (mode : Mode)
    (protocol : Protocol) (cf kf cl : String) (vp : Bool) :
    (LibCall.SSL_CTX_set_cipher_list cl
        ∈ (CryptoManagerImpl.Init env o self g mode protocol cf kf cl vp).calls →
      env.setCipherOk cl = false →
      (CryptoManagerImpl.Init env o self g mode protocol cf kf cl vp).ret = false)
    ∧ (∀ m, resolveMethod o mode.isServer protocol = some m →
      (cf = "" ∨ (env.useCertOk cf = true
        ∧ (kf = "" ∨ (env.useKeyOk kf = true ∧ env.checkKeyOk = true)))) →
      env.setCipherOk cl = true →
      (CryptoManagerImpl.Init env o self g mode protocol cf kf cl vp).ret = true
      ∧ LibCall.SSL_CTX_set_verify
          ∈ (CryptoManagerImpl.Init env o self g mode protocol cf kf cl vp).calls) := by
  constructor
  · intro hmem hbad
    cases hm : resolveMethod o mode.isServer protocol with
    | none =>
      rw [Init_of_resolve_none env o self g mode protocol cf kf cl vp hm]
    | some m =>
      rw [Init_of_resolve_some env o self g mode protocol cf kf cl vp m hm]
      by_cases hcr : (applyCredentials env cf kf (allocContext env protocol m).ctx).ok = false
      · rw [if_pos hcr]
      · rw [if_neg hcr]
        show (applyCipherVerify env cl vp _).ok = false
        rw [applyCipherVerify_ok]
        exact hbad
  · intro m hm hcred hok
    have hcr : (applyCredentials env cf kf (allocContext env protocol m).ctx).ok = true :=
      (applyCredentials_ok_iff env cf kf _).mpr hcred
    have hne : ¬((applyCredentials env cf kf (allocContext env protocol m).ctx).ok = false) := by
      rw [hcr]
      simp
    rw [Init_of_resolve_some env o self g mode protocol cf kf cl vp m hm, if_neg hne]
    constructor
    · show (applyCipherVerify env cl vp _).ok = true
      rw [applyCipherVerify_ok]
      exact hok
    · exact List.mem_append_right _ (applyCipherVerify_calls_verify_mem env cl vp _ hok)

/-- Witness for C7: a rejected cipher list after a credential-free build
makes `Init` fail. -/
theorem Init_cipher_policy_witness :
    LibCall.SSL_CTX_set_cipher_list "BOGUS"
        ∈ (CryptoManagerImpl.Init envBadCipher true CryptoManagerImpl.new initialGlobal
            Mode.CLIENT Protocol.TLSv1_2 "" "" "BOGUS" false).calls
    ∧ envBadCipher.setCipherOk "BOGUS" = false
    ∧ (CryptoManagerImpl.Init envBadCipher true CryptoManagerImpl.new initialGlobal
        Mode.CLIENT Protocol.TLSv1_2 "" "" "BOGUS" false).ret = false :=
  ⟨by decide, rfl,
    (Init_cipher_policy envBadCipher true CryptoManagerImpl.new initialGlobal
        Mode.CLIENT Protocol.TLSv1_2 "" "" "BOGUS" false).1 (by decide) rfl⟩

/-- Claim C8: `Init` rolls nothing back on failure.  The ref-count
increment of lines 58-64 survives every path, success or failure; and when
the key load or the key-certificate check fails after a certificate was
applied, `Init` returns failure but the still-allocated context keeps the
applied certificate. -/
theorem Init_no_rollback (env : LibEnv) (o : Bool)
    (self : CryptoManagerImpl) (g : GlobalState) (mode : Mode)
    (protocol : Protocol) (cf kf cl : String) (vp : Bool) :
    ((CryptoManagerImpl.Init env o self g mode protocol cf kf cl vp).global.instance_count_
        = g.instance_count_ + 1)
    ∧ (∀ m, resolveMethod o mode.isServer protocol = some m →
        env.ctxNewOk m = true → cf ≠ "" → env.useCertOk cf = true → kf ≠ "" →
        (env.useKeyOk kf = false ∨ env.checkKeyOk = false) →
        (CryptoManagerImpl.Init env o self g mode protocol cf kf cl vp).ret = false
        ∧ ∃ c, (CryptoManagerImpl.Init env o self g mode protocol cf kf cl vp).mgr.context_
              = some c
            ∧ c.certApplied = true) := by
  constructor
  · rw [Init_global, bootstrapAndCount_count]
  · intro m hm hctx hcf hcert hkf hbad
    have hcr : (applyCredentials env cf kf (allocContext env protocol m).ctx).ok = false := by
      cases hv : (applyCredentials env cf kf (allocContext env protocol m).ctx).ok
      · rfl
      · have := (applyCredentials_ok_iff env cf kf _).mp hv
        rcases hbad with hb | hb <;> simp_all
    rw [Init_of_resolve_some env o self g mode protocol cf kf cl vp m hm, if_pos hcr]
    refine ⟨rfl, ?_⟩
    have hmap := applyCredentials_ctx_certApplied env cf kf
      (allocContext env protocol m).ctx hcf hcert
    have hsome : ((allocContext env protocol m).ctx).map (fun _ => true) = some true := by
      rw [allocContext_ctx_some env protocol m hctx]
      rfl
    rw [hsome] at hmap
    obtain ⟨c, hc, hca⟩ := Option.map_eq_some'.mp hmap
    exact ⟨c, hc, hca⟩

/-- Witness for C8: failing key-certificate check leaves the certificate
applied and the increment in place. -/
theorem Init_no_rollback_witness :
    resolveMethod true Mode.SERVER.isServer Protocol.TLSv1_2
        = some SSLMethod.TLSv1_2_server
    ∧ envBadCheck.ctxNewOk SSLMethod.TLSv1_2_server = true
    ∧ "c.pem" ≠ ""
    ∧ envBadCheck.useCertOk "c.pem" = true
    ∧ "other.key" ≠ ""
    ∧ (envBadCheck.useKeyOk "other.key" = false ∨ envBadCheck.checkKeyOk = false)
    ∧ ((CryptoManagerImpl.Init envBadCheck true CryptoManagerImpl.new initialGlobal
          Mode.SERVER Protocol.TLSv1_2 "c.pem" "other.key" "HIGH" true).ret = false
      ∧ ∃ c, (CryptoManagerImpl.Init envBadCheck true CryptoManagerImpl.new initialGlobal
            Mode.SERVER Protocol.TLSv1_2 "c.pem" "other.key" "HIGH" true).mgr.context_
          = some c
        ∧ c.certApplied = true) :=
  ⟨rfl, rfl, by decide, rfl, by decide, Or.inr rfl,
    (Init_no_rollback envBadCheck true CryptoManagerImpl.new initialGlobal
        Mode.SERVER Protocol.TLSv1_2 "c.pem" "other.key" "HIGH" true).2
      SSLMethod.TLSv1_2_server rfl rfl (by decide) rfl (by decide) (Or.inr rfl)⟩

/-- Claim C9: a build for the legacy `SSLv3` protocol sets the
`SSL_OP_NO_SSLv2` option on the newly created context (and the flag
survives the rest of the build); for any other protocol the
`SSL_CTX_set_options` call never appears in the trace and the context a
build stores never carries the flag. -/
theorem Init_sslv3_option (env : LibEnv) (o : Bool)
    (self : CryptoManagerImpl) (g : GlobalState) (mode : Mode)
    (cf kf cl : String) (vp : Bool) :
    (∀ m, resolveMethod o mode.isServer Protocol.SSLv3 = some m →
      env.ctxNewOk m = true →
      ∃ c, (CryptoManagerImpl.Init env o self g mode Protocol.SSLv3 cf kf cl vp).mgr.context_
            = some c
          ∧ c.optNoSSLv2 = true)
    ∧ (∀ protocol, protocol ≠ Protocol.SSLv3 →
        LibCall.SSL_CTX_set_options
          ∉ (CryptoManagerImpl.Init env o self g mode protocol cf kf cl vp).calls)
    ∧ (∀ protocol m, protocol ≠ Protocol.SSLv3 →
        resolveMethod o mode.isServer protocol = some m →
        ∀ c, (CryptoManagerImpl.Init env o self g mode protocol cf kf cl vp).mgr.context_
            = some c →
          c.optNoSSLv2 = false) := by
  refine ⟨?_, ?_, ?_⟩
  · intro m hm hctx
    have hopt := Init_context_opt env o self g mode Protocol.SSLv3 cf kf cl vp m hm
    rw [allocContext_ctx_some env Protocol.SSLv3 m hctx] at hopt
    simp only [Option.map_some'] at hopt
    obtain ⟨c, hc, hca⟩ := Option.map_eq_some'.mp hopt
    refine ⟨c, hc, ?_⟩
    rw [hca]
    simp
  · intro protocol hne
    cases hm : resolveMethod o mode.isServer protocol with
    | none =>
      rw [Init_of_resolve_none env o self g mode protocol cf kf cl vp hm]
      simp
    | some m =>
      rw [Init_of_resolve_some env o self g mode protocol cf kf cl vp m hm]
      by_cases hcr : (applyCredentials env cf kf (allocContext env protocol m).ctx).ok = false
      · rw [if_pos hcr]
        intro hmem
        rcases List.mem_append.mp hmem with h | h
        · rw [allocContext_calls, if_neg hne] at h
          simp at h
        · exact applyCredentials_calls_no_options env cf kf _ h
      · rw [if_neg hcr]
        intro hmem
        rcases List.mem_append.mp hmem with h | h
        · rcases List.mem_append.mp h with h1 | h1
          · rw [allocContext_calls, if_neg hne] at h1
            simp at h1
          · exact applyCredentials_calls_no_options env cf kf _ h1
        · exact applyCipherVerify_calls_no_options env cl vp _ h
  · intro protocol m hne hm c hc
    have hopt := Init_context_opt env o self g mode protocol cf kf cl vp m hm
    rw [hc] at hopt
    cases hv : env.ctxNewOk m with
    | false =>
      rw [allocContext_ctx_none env protocol m hv] at hopt
      simp at hopt
    | true =>
      rw [allocContext_ctx_some env protocol m hv] at hopt
      simp only [Option.map_some'] at hopt
      injection hopt with h
      rw [h]
      simp [hne]

/-- Witness for C9: an SSLv3 client build sets the flag on its context. -/
theorem Init_sslv3_option_witness :
    resolveMethod true Mode.CLIENT.isServer Protocol.SSLv3
        = some SSLMethod.SSLv3_client
    ∧ envAllOk.ctxNewOk SSLMethod.SSLv3_client = true
    ∧ (∃ c, (CryptoManagerImpl.Init envAllOk true CryptoManagerImpl.new initialGlobal
          Mode.CLIENT Protocol.SSLv3 "" "" "DEFAULT" false).mgr.context_ = some c
        ∧ c.optNoSSLv2 = true) :=
  ⟨rfl, rfl,
    (Init_sslv3_option envAllOk true CryptoManagerImpl.new initialGlobal
        Mode.CLIENT "" "" "DEFAULT" false).1 SSLMethod.SSLv3_client rfl rfl⟩

end security_manager
